import Mathlib

/-!
Shallow embedding of the agent-execution-controller core
(src/core/types.ts, errors.ts, state.ts, killSwitch.ts, cost.ts,
guard.ts, execution.ts, log/eventStore.ts).

JavaScript numbers are modelled as rationals (ℚ); timestamps as ℕ.
In-place mutation of the run, the global event log and the kill switch
is modelled by explicit state passing: an operation that can throw
returns the post-state together with an optional error, because a
TypeScript `throw` leaves all mutations made before it in place.
-/

namespace AgentExec

/-- Lifecycle states, from src/core/types.ts `ExecutionState`. -/
inductive ExecutionState
  | CREATED
  | RUNNING
  | PAUSED
  | KILLED
  | COMPLETED
  | FAILED
  deriving DecidableEq

/-- Budget, from src/core/types.ts. -/
structure Budget where
  maxTokens : ℚ
  maxUsd : ℚ
  deriving DecidableEq

/-- The `spent` running totals of a run, from src/core/types.ts. -/
structure SpentTotals where
  tokens : ℚ
  usd : ℚ
  deriving DecidableEq

/-- Event categories, from src/core/types.ts `StepEventType`. -/
inductive StepEventType
  | LLM_CALL
  | TOOL_CALL
  | DECISION
  | ERROR
  deriving DecidableEq

/-- One step event, from src/core/types.ts `StepEvent`. -/
structure StepEvent where
  id : String
  stepNumber : Nat
  type : StepEventType
  description : String
  cost : ℚ
  tokens : ℚ
  timestamp : Nat
  deriving DecidableEq

/-- An execution run, from src/core/types.ts `ExecutionRun`.
Optional fields (`startedAt?`, `endedAt?`, `terminationReason?`) are
`Option`s; `undefined` is `none`. -/
structure ExecutionRun where
  id : String
  state : ExecutionState
  budget : Budget
  spent : SpentTotals
  steps : List StepEvent
  startedAt : Option Nat
  endedAt : Option Nat
  terminationReason : Option String
  deriving DecidableEq

/-- The summary record, from src/core/types.ts `ExecutionSummary`.
`durationMs` is an integer since a difference of timestamps can be
negative in principle. -/
structure ExecutionSummary where
  runId : String
  finalState : ExecutionState
  stepsExecuted : Nat
  totalCost : ℚ
  totalTokens : ℚ
  terminationReason : Option String
  durationMs : Int
  startedAt : Nat
  endedAt : Nat
  deriving DecidableEq

/-- Which budget limit was exceeded, from src/core/errors.ts
`BudgetExceededError.limitType`. -/
inductive LimitType
  | tokens
  | usd
  deriving DecidableEq

/-- The structured controller errors of src/core/errors.ts
(subclasses of `ExecutionError`). -/
inductive ExecError
  | budgetExceeded (limitType : LimitType) (spent limit : ℚ)
  | killSwitchTriggered (reason : String)
  | invalidStateTransition (fromState toState : ExecutionState)
  deriving DecidableEq

/-- `code` field of each error subclass in src/core/errors.ts. -/
def ExecError.code : ExecError → String
  | .budgetExceeded _ _ _ => "BUDGET_EXCEEDED"
  | .killSwitchTriggered _ => "KILL_SWITCH_TRIGGERED"
  | .invalidStateTransition _ _ => "INVALID_STATE_TRANSITION"

/-- Display name of a state, used in error messages. -/
def ExecutionState.name : ExecutionState → String
  | .CREATED => "CREATED"
  | .RUNNING => "RUNNING"
  | .PAUSED => "PAUSED"
  | .KILLED => "KILLED"
  | .COMPLETED => "COMPLETED"
  | .FAILED => "FAILED"

/-- `message` of each error subclass, from the constructors in
src/core/errors.ts. -/
def ExecError.message : ExecError → String
  | .budgetExceeded t s l =>
    (if t = .tokens then "Token" else "Cost") ++ " budget exceeded: spent "
      ++ toString s ++ ", limit " ++ toString l
  | .killSwitchTriggered r => "Execution terminated by kill switch: " ++ r
  | .invalidStateTransition f t =>
    "Invalid state transition: " ++ f.name ++ " → " ++ t.name

/-- A thrown value as seen by `handleExecutionError(run, error: unknown)`:
either a structured `ExecutionError` or an unrecognized error carrying
only its message string. -/
inductive ThrownError
  | controlled (e : ExecError)
  | unknown (message : String)
  deriving DecidableEq

/-- `error instanceof Error ? error.message : String(error)`. -/
def ThrownError.message : ThrownError → String
  | .controlled e => e.message
  | .unknown m => m

/-- The global kill switch state of src/core/killSwitch.ts:
module-level `killed` and `killReason`. -/
structure KillSwitch where
  killed : Bool
  killReason : Option String
  deriving DecidableEq

/-- src/core/killSwitch.ts `killExecution(reason = "Manual termination")`. -/
def killExecution (_ks : KillSwitch) (reason : String) : KillSwitch :=
  { killed := true, killReason := some reason }

/-- src/core/killSwitch.ts `isKilled`. -/
def isKilled (ks : KillSwitch) : Bool :=
  ks.killed

/-- src/core/killSwitch.ts `getKillReason`. -/
def getKillReason (ks : KillSwitch) : Option String :=
  ks.killReason

/-- src/core/killSwitch.ts `assertAlive`: throws
`KillSwitchTriggeredError(killReason ?? "Manual termination")` when
killed; modelled as an optional error. -/
def assertAlive (ks : KillSwitch) : Option ExecError :=
  if ks.killed then
    some (.killSwitchTriggered (ks.killReason.getD "Manual termination"))
  else none

/-- src/core/killSwitch.ts `resetKillSwitch`. -/
def resetKillSwitch : KillSwitch :=
  { killed := false, killReason := none }

/-- src/core/state.ts `validTransitions` record. -/
def validTransitions : ExecutionState → List ExecutionState
  | .CREATED => [.RUNNING]
  | .RUNNING => [.PAUSED, .COMPLETED, .KILLED, .FAILED]
  | .PAUSED => [.RUNNING, .KILLED]
  | .KILLED => []
  | .COMPLETED => []
  | .FAILED => []

/-- src/core/state.ts `isTerminalState`. -/
def isTerminalState (state : ExecutionState) : Bool :=
  state = .COMPLETED || state = .KILLED || state = .FAILED

/-- src/core/state.ts `transitionState(run, toState)`; `now` is the
value of `Date.now()`. The TypeScript throws before any mutation, so
the error case returns the run unchanged. -/
def transitionState (run : ExecutionRun) (toState : ExecutionState)
    (now : Nat) : ExecutionRun × Option ExecError :=
  let allowed := validTransitions run.state
  if toState ∈ allowed then
    let run1 := { run with state := toState }
    let run2 :=
      if toState = .RUNNING ∧ run1.startedAt = none then
        { run1 with startedAt := some now }
      else run1
    let run3 :=
      if isTerminalState toState then { run2 with endedAt := some now }
      else run2
    (run3, none)
  else
    (run, some (.invalidStateTransition run.state toState))

/-- src/core/state.ts `createExecutionRun`. -/
def createExecutionRun (id : String) (budget : Budget) : ExecutionRun :=
  { id := id
    state := .CREATED
    budget := budget
    spent := { tokens := 0, usd := 0 }
    steps := []
    startedAt := none
    endedAt := none
    terminationReason := none }

/-- src/core/cost.ts `addCost`. -/
def addCost (run : ExecutionRun) (tokens usd : ℚ) : ExecutionRun :=
  { run with
      spent := { tokens := run.spent.tokens + tokens
                 usd := run.spent.usd + usd } }

/-- src/core/guard.ts `enforceLimits`: token check first, then usd,
both strict greater-than; modelled as an optional error. -/
def enforceLimits (run : ExecutionRun) : Option ExecError :=
  if run.spent.tokens > run.budget.maxTokens then
    some (.budgetExceeded .tokens run.spent.tokens run.budget.maxTokens)
  else if run.spent.usd > run.budget.maxUsd then
    some (.budgetExceeded .usd run.spent.usd run.budget.maxUsd)
  else none

/-- src/log/eventStore.ts `logEvent`: append to the global event list. -/
def logEvent (events : List StepEvent) (event : StepEvent) : List StepEvent :=
  events ++ [event]

/-- src/log/eventStore.ts `getEvents`: returns a copy of the log; in a
functional model the copy is the list itself. -/
def getEvents (events : List StepEvent) : List StepEvent :=
  events

/-- src/log/eventStore.ts `getEventCount`. -/
def getEventCount (events : List StepEvent) : Nat :=
  events.length

/-- src/log/eventStore.ts `clearEvents`. -/
def clearEvents : List StepEvent :=
  []

/-- Result of one mutating controller operation: the run, the global
event log, and the error that was thrown, if any. Mutations made
before the throw are visible in `run` and `log`. -/
structure StepOutcome where
  run : ExecutionRun
  log : List StepEvent
  error : Option ThrownError
  deriving DecidableEq

/-- src/core/execution.ts `executeStep(run, stepNumber, type,
description, tokens, cost)`. `eventId` stands for `crypto.randomUUID()`
and `now` for `Date.now()` at the event construction. Order is exactly
the source's: assertAlive, addCost, enforceLimits, logEvent,
`run.steps.push`. -/
def executeStep (ks : KillSwitch) (run : ExecutionRun)
    (log : List StepEvent) (stepNumber : Nat) (type : StepEventType)
    (description : String) (tokens cost : ℚ) (eventId : String)
    (now : Nat) : StepOutcome :=
  match assertAlive ks with
  | some e => { run := run, log := log, error := some (.controlled e) }
  | none =>
    let run1 := addCost run tokens cost
    match enforceLimits run1 with
    | some e => { run := run1, log := log, error := some (.controlled e) }
    | none =>
      let event : StepEvent :=
        { id := eventId
          stepNumber := stepNumber
          type := type
          description := description
          cost := cost
          tokens := tokens
          timestamp := now }
      { run := { run1 with steps := run1.steps ++ [event] }
        log := logEvent log event
        error := none }

/-- The non-deterministic inputs of `runExecution`: the timestamp and
uuid of the event created at loop index `i`, and the `Date.now()` reads
inside the two `transitionState` calls. -/
structure Env where
  stepId : Nat → String
  stepTime : Nat → Nat
  startTime : Nat
  endTime : Nat

/-- The `for (let i = 0; i < maxSteps; i++)` loop body of
src/core/execution.ts `runExecution`: each iteration calls
`executeStep(run, i + 1, "LLM_CALL", ..., 50, 0.1)`; an error stops the
loop and propagates. `fuel` is the number of remaining iterations and
`i` the current loop index. -/
def runLoop (env : Env) (ks : KillSwitch) :
    Nat → Nat → ExecutionRun → List StepEvent → StepOutcome
  | 0, _, run, log => { run := run, log := log, error := none }
  | fuel + 1, i, run, log =>
    let out := executeStep ks run log (i + 1) .LLM_CALL
      ("Executing agent step " ++ toString (i + 1)) 50 (1/10)
      (env.stepId i) (env.stepTime i)
    match out.error with
    | some _ => out
    | none => runLoop env ks fuel (i + 1) out.run out.log

/-- src/core/execution.ts `runExecution(run, maxSteps = 10)`:
transition to RUNNING, run the step loop, then transition to COMPLETED.
Any error propagates with the state reached so far. (The TypeScript
default for `maxSteps` is 10; callers here pass it explicitly.) -/
def runExecution (env : Env) (ks : KillSwitch) (run : ExecutionRun)
    (log : List StepEvent) (maxSteps : Nat) : StepOutcome :=
  match transitionState run .RUNNING env.startTime with
  | (run1, some e) => { run := run1, log := log, error := some (.controlled e) }
  | (run1, none) =>
    let out := runLoop env ks maxSteps 0 run1 log
    match out.error with
    | some _ => out
    | none =>
      match transitionState out.run .COMPLETED env.endTime with
      | (run2, some e) =>
        { run := run2, log := out.log, error := some (.controlled e) }
      | (run2, none) => { run := run2, log := out.log, error := none }

/-- src/core/execution.ts `generateSummary(run)`; `now` is `Date.now()`. -/
def generateSummary (run : ExecutionRun) (now : Nat) : ExecutionSummary :=
  let startedAt := run.startedAt.getD now
  let endedAt := run.endedAt.getD now
  { runId := run.id
    finalState := run.state
    stepsExecuted := run.steps.length
    totalCost := run.spent.usd
    totalTokens := run.spent.tokens
    terminationReason := run.terminationReason
    durationMs := (endedAt : Int) - (startedAt : Int)
    startedAt := startedAt
    endedAt := endedAt }

/-- src/core/execution.ts `handleExecutionError(run, error)`; `now` is
`Date.now()`. Sets `terminationReason` to the error message, then
classifies: kill switch triggered wins, else structured errors by
`code`, else FAILED; finally assigns `run.endedAt = Date.now()`. -/
def handleExecutionError (ks : KillSwitch) (run : ExecutionRun)
    (error : ThrownError) (now : Nat) : ExecutionRun :=
  let errorMessage := error.message
  let run1 := { run with terminationReason := some errorMessage }
  let run2 :=
    if isKilled ks then
      { run1 with
          state := .KILLED
          terminationReason := some ((getKillReason ks).getD "Execution terminated") }
    else
      match error with
      | .controlled e =>
        { run1 with
            state :=
              if e.code = "KILL_SWITCH_TRIGGERED" then ExecutionState.KILLED
              else ExecutionState.FAILED }
      | .unknown _ => { run1 with state := .FAILED }
  { run2 with endedAt := some now }

/-- Applying a list of `transitionState` calls in order, each with its
own `Date.now()` value; a failed call leaves the run unchanged (the
TypeScript throws before mutating) and the sequence continues with the
run as it stands. -/
def applyTransitions (run : ExecutionRun) :
    List (ExecutionState × Nat) → ExecutionRun
  | [] => run
  | (t, now) :: rest => applyTransitions (transitionState run t now).1 rest

/-! Concrete fixtures for witnesses and counterexamples. -/

/-- Timestamps and event ids fixed to trivial values. -/
def demoEnv : Env :=
  { stepId := fun _ => "", stepTime := fun _ => 0, startTime := 0, endTime := 0 }

/-- Kill switch in its initial, untriggered state. -/
def ksOff : KillSwitch :=
  { killed := false, killReason := none }

/-- Kill switch after `killExecution("operator stop")`. -/
def ksOn : KillSwitch :=
  killExecution ksOff "operator stop"

/-- A fresh run with the budget of the spec's worked example. -/
def runC1 : ExecutionRun :=
  createExecutionRun "run_1" { maxTokens := 200, maxUsd := 1/2 }

/-- The example run moved to PAUSED. -/
def runPaused : ExecutionRun :=
  { runC1 with state := .PAUSED }

/-- The example run moved to RUNNING. -/
def runRunning : ExecutionRun :=
  { runC1 with state := .RUNNING }

/-- A run that already reached the terminal state COMPLETED. -/
def runDone : ExecutionRun :=
  { runC1 with state := .COMPLETED, endedAt := some 100 }

/-- A run that has started but not ended. -/
def runStarted : ExecutionRun :=
  { runC1 with startedAt := some 10 }

/-- A PAUSED run whose `startedAt` was already assigned. -/
def runPausedStarted : ExecutionRun :=
  { runC1 with state := .PAUSED, startedAt := some 10 }

/-- Spend exactly at both limits. -/
def runAtLimit : ExecutionRun :=
  { runC1 with spent := { tokens := 200, usd := 1/2 } }

/-- Spend over both limits at once. -/
def runOverBoth : ExecutionRun :=
  { runC1 with spent := { tokens := 250, usd := 1 } }

/-- Spend within the token limit but over the usd limit. -/
def runOverUsd : ExecutionRun :=
  { runC1 with spent := { tokens := 100, usd := 1 } }

/-- C3: `transitionState(run, target)` succeeds and sets
`run.state = target` exactly when `(run.state, target)` is one of the
seven allowed pairs (CREATED→RUNNING, RUNNING→PAUSED/COMPLETED/KILLED/
FAILED, PAUSED→RUNNING/KILLED); every other pair fails with
InvalidTransition and leaves `run.state` unchanged. -/
theorem C3_transition_valid_pairs (run : ExecutionRun)
    (target : ExecutionState) (now : Nat) :
    (target ∈ validTransitions run.state ↔
      (run.state, target) ∈
        ([(.CREATED, .RUNNING), (.RUNNING, .PAUSED), (.RUNNING, .COMPLETED),
          (.RUNNING, .KILLED), (.RUNNING, .FAILED), (.PAUSED, .RUNNING),
          (.PAUSED, .KILLED)] : List (ExecutionState × ExecutionState))) ∧
    (target ∈ validTransitions run.state →
      (transitionState run target now).2 = none ∧
      (transitionState run target now).1.state = target) ∧
    (target ∉ validTransitions run.state →
      (transitionState run target now).2 =
        some (.invalidStateTransition run.state target) ∧
      (transitionState run target now).1.state = run.state) := by
  refine ⟨?_, fun h => ?_, fun h => ?_⟩
  · cases run.state <;> cases target <;> simp [validTransitions]
  · refine ⟨by simp [transitionState, if_pos h], ?_⟩
    simp only [transitionState, if_pos h]
    split_ifs <;> rfl
  · simp only [transitionState, if_neg h]
    exact ⟨trivial, trivial⟩

/-- Witness for C3: the valid pair CREATED→RUNNING succeeds; the
invalid pair COMPLETED→RUNNING fails with InvalidTransition and leaves
the state COMPLETED. -/
theorem C3_transition_valid_pairs_witness :
    ((transitionState runC1 .RUNNING 7).2 = none ∧
      (transitionState runC1 .RUNNING 7).1.state = .RUNNING) ∧
    ((transitionState runDone .RUNNING 7).2 =
        some (.invalidStateTransition .COMPLETED .RUNNING) ∧
      (transitionState runDone .RUNNING 7).1.state = .COMPLETED) :=
  ⟨(C3_transition_valid_pairs runC1 .RUNNING 7).2.1 (by decide),
    (C3_transition_valid_pairs runDone .RUNNING 7).2.2 (by decide)⟩

/-- C6: `enforceLimits` fails with kind tokens exactly when
`spent.tokens > budget.maxTokens`; otherwise with kind usd exactly when
`spent.usd > budget.maxUsd`; otherwise succeeds. Spend equal to a limit
is accepted, and simultaneous overage reports tokens. -/
theorem C6_enforceLimits_tokens_then_usd (run : ExecutionRun) :
    (run.spent.tokens > run.budget.maxTokens →
      enforceLimits run =
        some (.budgetExceeded .tokens run.spent.tokens run.budget.maxTokens)) ∧
    (run.spent.tokens ≤ run.budget.maxTokens →
      run.spent.usd > run.budget.maxUsd →
      enforceLimits run =
        some (.budgetExceeded .usd run.spent.usd run.budget.maxUsd)) ∧
    (run.spent.tokens ≤ run.budget.maxTokens →
      run.spent.usd ≤ run.budget.maxUsd →
      enforceLimits run = none) := by
  refine ⟨fun h => ?_, fun h1 h2 => ?_, fun h1 h2 => ?_⟩
  · simp [enforceLimits, h]
  · simp [enforceLimits, not_lt.mpr h1, h2]
  · simp [enforceLimits, not_lt.mpr h1, not_lt.mpr h2]

/-- Witness for C6: over both limits reports tokens; over usd only
reports usd; spend exactly at both limits is accepted. -/
theorem C6_enforceLimits_tokens_then_usd_witness :
    enforceLimits runOverBoth = some (.budgetExceeded .tokens 250 200) ∧
    enforceLimits runOverUsd = some (.budgetExceeded .usd 1 (1/2)) ∧
    enforceLimits runAtLimit = none :=
  ⟨(C6_enforceLimits_tokens_then_usd runOverBoth).1
      (by norm_num [runOverBoth, runC1, createExecutionRun]),
    (C6_enforceLimits_tokens_then_usd runOverUsd).2.1
      (by norm_num [runOverUsd, runC1, createExecutionRun])
      (by norm_num [runOverUsd, runC1, createExecutionRun]),
    (C6_enforceLimits_tokens_then_usd runAtLimit).2.2
      (by norm_num [runAtLimit, runC1, createExecutionRun])
      (by norm_num [runAtLimit, runC1, createExecutionRun])⟩

/-- Once `startedAt` is assigned, no single transition changes it. -/
theorem transitionState_keeps_startedAt (run : ExecutionRun)
    (t : ExecutionState) (now s : Nat) (h : run.startedAt = some s) :
    (transitionState run t now).1.startedAt = some s := by
  simp only [transitionState]
  split_ifs <;> simp_all

/-- C7: `startedAt` is assigned exactly once, on the first
CREATED→RUNNING transition: it is set by a CREATED→RUNNING transition
when unset, it is never set by a transition to a non-RUNNING target,
and once set it survives any single transition, any sequence of
transitions, and in particular a PAUSED→RUNNING re-entry. -/
theorem C7_startedAt_set_once :
    (∀ (run : ExecutionRun) (now : Nat), run.state = .CREATED →
      run.startedAt = none →
      (transitionState run .RUNNING now).1.startedAt = some now) ∧
    (∀ (run : ExecutionRun) (t : ExecutionState) (now : Nat),
      run.startedAt = none → t ≠ .RUNNING →
      (transitionState run t now).1.startedAt = none) ∧
    (∀ (run : ExecutionRun) (t : ExecutionState) (now s : Nat),
      run.startedAt = some s →
      (transitionState run t now).1.startedAt = some s) ∧
    (∀ (run : ExecutionRun) (ops : List (ExecutionState × Nat)) (s : Nat),
      run.startedAt = some s → (applyTransitions run ops).startedAt = some s) ∧
    (∀ (run : ExecutionRun) (now s : Nat), run.state = .PAUSED →
      run.startedAt = some s →
      (transitionState run .RUNNING now).1.startedAt = some s) := by
  refine ⟨?_, ?_, ?_, ?_, ?_⟩
  · intro run now hstate hstart
    simp [transitionState, hstate, validTransitions, hstart, isTerminalState]
  · intro run t now hstart ht
    simp only [transitionState]
    split_ifs <;> simp_all
  · exact fun run t now s h => transitionState_keeps_startedAt run t now s h
  · intro run ops
    induction ops generalizing run with
    | nil => intro s h; exact h
    | cons op rest ih =>
      intro s h
      exact ih _ s (transitionState_keeps_startedAt run op.1 op.2 s h)
  · exact fun run now s _ h => transitionState_keeps_startedAt run .RUNNING now s h

/-- Witness for C7: a fresh CREATED run gets `startedAt := 5` on its
first transition to RUNNING; a PAUSED run with `startedAt = 10` keeps
it on re-entering RUNNING, and keeps it across a whole sequence of
transitions. -/
theorem C7_startedAt_set_once_witness :
    (transitionState runC1 .RUNNING 5).1.startedAt = some 5 ∧
    (transitionState runPausedStarted .RUNNING 99).1.startedAt = some 10 ∧
    (applyTransitions runPausedStarted
      [(.RUNNING, 99), (.PAUSED, 120), (.RUNNING, 150)]).startedAt = some 10 :=
  ⟨C7_startedAt_set_once.1 runC1 5 rfl rfl,
    C7_startedAt_set_once.2.2.2.2 runPausedStarted 99 10 rfl rfl,
    C7_startedAt_set_once.2.2.2.1 runPausedStarted
      [(.RUNNING, 99), (.PAUSED, 120), (.RUNNING, 150)] 10 rfl⟩

/-- C2: every step executed by the controller adds its tokens and usd
to `run.spent` unconditionally before the budget guard runs; when the
guard then fails, no event is appended to the event log or to
`run.steps` for that step, yet the failing step's cost remains
recorded in `run.spent`. -/
theorem C2_cost_recorded_before_guard (ks : KillSwitch)
    (run : ExecutionRun) (log : List StepEvent) (stepNumber : Nat)
    (type : StepEventType) (description : String) (tokens cost : ℚ)
    (eventId : String) (now : Nat) (halive : isKilled ks = false) :
    (executeStep ks run log stepNumber type description tokens cost
        eventId now).run.spent.tokens = run.spent.tokens + tokens ∧
    (executeStep ks run log stepNumber type description tokens cost
        eventId now).run.spent.usd = run.spent.usd + cost ∧
    ∀ e, (executeStep ks run log stepNumber type description tokens cost
        eventId now).error = some e →
      (executeStep ks run log stepNumber type description tokens cost
          eventId now).log = log ∧
      (executeStep ks run log stepNumber type description tokens cost
          eventId now).run.steps = run.steps := by
  have hk : ks.killed = false := halive
  rcases h : enforceLimits (addCost run tokens cost) with _ | e <;>
    simp only [addCost] at h <;>
    simp [executeStep, assertAlive, hk, addCost, logEvent, h]

/-- Witness for C2: at spend already exactly at the limit, a step of 50
tokens is charged (spent becomes 250), the guard fails, and neither the
log nor `run.steps` gains an event. -/
theorem C2_cost_recorded_before_guard_witness :
    (executeStep ksOff runAtLimit [] 5 .LLM_CALL "step" 50 (1/10) "e5"
        0).run.spent.tokens = runAtLimit.spent.tokens + 50 ∧
    (executeStep ksOff runAtLimit [] 5 .LLM_CALL "step" 50 (1/10) "e5"
        0).log = [] ∧
    (executeStep ksOff runAtLimit [] 5 .LLM_CALL "step" 50 (1/10) "e5"
        0).run.steps = runAtLimit.steps :=
  have h := C2_cost_recorded_before_guard ksOff runAtLimit [] 5 .LLM_CALL
    "step" 50 (1/10) "e5" 0 rfl
  have herr : (executeStep ksOff runAtLimit [] 5 .LLM_CALL "step" 50 (1/10)
      "e5" 0).error = some (.controlled (.budgetExceeded .tokens 250 200)) := by
    norm_num [executeStep, assertAlive, ksOff, addCost, enforceLimits,
      runAtLimit, runC1, createExecutionRun]
  ⟨h.1, (h.2.2 _ herr).1, (h.2.2 _ herr).2⟩

/-- C4: the error classifier forces KILLED with the kill switch's
reason whenever the switch is triggered, regardless of the error;
otherwise KillSwitchTriggered yields KILLED and every other error,
structured or unrecognized, yields FAILED; `endedAt` is set at this
point if not already set. -/
theorem C4_classify_error (ks : KillSwitch) (run : ExecutionRun)
    (error : ThrownError) (now : Nat) :
    (isKilled ks = true →
      (handleExecutionError ks run error now).state = .KILLED ∧
      (handleExecutionError ks run error now).terminationReason =
        some ((getKillReason ks).getD "Execution terminated")) ∧
    (isKilled ks = false → ∀ r,
      error = .controlled (.killSwitchTriggered r) →
      (handleExecutionError ks run error now).state = .KILLED) ∧
    (isKilled ks = false → ∀ t s l,
      error = .controlled (.budgetExceeded t s l) →
      (handleExecutionError ks run error now).state = .FAILED) ∧
    (isKilled ks = false → ∀ a b,
      error = .controlled (.invalidStateTransition a b) →
      (handleExecutionError ks run error now).state = .FAILED) ∧
    (isKilled ks = false → ∀ m, error = .unknown m →
      (handleExecutionError ks run error now).state = .FAILED) ∧
    (run.endedAt = none →
      (handleExecutionError ks run error now).endedAt = some now) := by
  refine ⟨fun hk => ?_, fun hk r he => ?_, fun hk t s l he => ?_,
    fun hk a b he => ?_, fun hk m he => ?_, fun _ => rfl⟩ <;>
    simp_all [handleExecutionError, isKilled, getKillReason, ExecError.code]

/-- Witness for C4: with the switch triggered a budget error still
yields KILLED with the switch's reason; with the switch off, a
KillSwitchTriggered error yields KILLED while budget and unrecognized
errors yield FAILED, and `endedAt` gets set. -/
theorem C4_classify_error_witness :
    (handleExecutionError ksOn runRunning
      (.controlled (.budgetExceeded .tokens 250 200)) 9).state = .KILLED ∧
    (handleExecutionError ksOn runRunning
      (.controlled (.budgetExceeded .tokens 250 200)) 9).terminationReason =
      some "operator stop" ∧
    (handleExecutionError ksOff runRunning
      (.controlled (.killSwitchTriggered "r")) 9).state = .KILLED ∧
    (handleExecutionError ksOff runRunning
      (.controlled (.budgetExceeded .tokens 250 200)) 9).state = .FAILED ∧
    (handleExecutionError ksOff runRunning (.unknown "boom") 9).state =
      .FAILED ∧
    (handleExecutionError ksOff runRunning (.unknown "boom") 9).endedAt =
      some 9 :=
  have h1 := (C4_classify_error ksOn runRunning
    (.controlled (.budgetExceeded .tokens 250 200)) 9).1 rfl
  ⟨h1.1, h1.2,
    (C4_classify_error ksOff runRunning
      (.controlled (.killSwitchTriggered "r")) 9).2.1 rfl "r" rfl,
    (C4_classify_error ksOff runRunning
      (.controlled (.budgetExceeded .tokens 250 200)) 9).2.2.1 rfl
      .tokens 250 200 rfl,
    (C4_classify_error ksOff runRunning (.unknown "boom") 9).2.2.2.2.1 rfl
      "boom" rfl,
    (C4_classify_error ksOff runRunning (.unknown "boom") 9).2.2.2.2.2 rfl⟩

/-- C10: `handleExecutionError` assigns `run.state` directly to KILLED
or FAILED without consulting transition validation, and unconditionally
overwrites `terminationReason` and `endedAt`; applied to a COMPLETED
run — a terminal state with no outgoing transitions — it still replaces
the state and the recorded `endedAt`. -/
theorem C10_handleError_bypasses_state_machine (ks : KillSwitch)
    (run : ExecutionRun) (error : ThrownError) (now : Nat) :
    (handleExecutionError ks run error now).endedAt = some now ∧
    (handleExecutionError ks run error now).terminationReason =
      some (if isKilled ks then (getKillReason ks).getD "Execution terminated"
            else error.message) ∧
    ((handleExecutionError ks run error now).state = .KILLED ∨
      (handleExecutionError ks run error now).state = .FAILED) ∧
    (run.state = .COMPLETED →
      validTransitions run.state = [] ∧
      (handleExecutionError ks run error now).state ≠ run.state) := by
  have hcases : (handleExecutionError ks run error now).state = .KILLED ∨
      (handleExecutionError ks run error now).state = .FAILED := by
    rcases error with e | m
    · rcases e with ⟨t, s, l⟩ | r | ⟨a, b⟩ <;>
        by_cases hk : ks.killed <;>
        simp [handleExecutionError, isKilled, hk, ExecError.code]
    · by_cases hk : ks.killed <;>
        simp [handleExecutionError, isKilled, hk]
  have hreason : (handleExecutionError ks run error now).terminationReason =
      some (if isKilled ks then (getKillReason ks).getD "Execution terminated"
            else error.message) := by
    by_cases hk : ks.killed
    · simp [handleExecutionError, isKilled, getKillReason, hk]
    · rcases error with e | m
      · rcases e with ⟨t, s, l⟩ | r | ⟨a, b⟩ <;>
          simp [handleExecutionError, isKilled, hk, ThrownError.message]
      · simp [handleExecutionError, isKilled, hk, ThrownError.message]
  refine ⟨rfl, hreason, hcases, fun hc => ⟨by rw [hc]; rfl, ?_⟩⟩
  rcases hcases with h | h <;> rw [h, hc] <;> simp

/-- Witness for C10: a COMPLETED run with `endedAt = 100` handed to the
classifier with an unrecognized error at time 200 ends FAILED with its
`endedAt` replaced by 200, although COMPLETED has no valid outgoing
transition. -/
theorem C10_handleError_bypasses_state_machine_witness :
    (handleExecutionError ksOff runDone (.unknown "boom") 200).endedAt =
      some 200 ∧
    (handleExecutionError ksOff runDone (.unknown "boom") 200).state ≠
      ExecutionState.COMPLETED ∧
    validTransitions ExecutionState.COMPLETED = [] ∧
    runDone.endedAt = some 100 :=
  have h := C10_handleError_bypasses_state_machine ksOff runDone
    (.unknown "boom") 200
  ⟨h.1, (h.2.2.2 rfl).2, (h.2.2.2 rfl).1, rfl⟩

/-- Counterexample to C1: with budget {200 tokens, $0.5} and steps
charging (50 tokens, $0.1), the guard fires on the 5th step (charged to
250 > 200 before the check), so only 4 steps succeed and the event log
holds 4 events, not the 5 the claim states. -/
theorem C1_budget_example_counterexample :
    (runExecution demoEnv ksOff runC1 [] 10).log.length = 4 ∧
    (runExecution demoEnv ksOff runC1 [] 10).log.length ≠ 5 := by
  have hR : isTerminalState ExecutionState.RUNNING = false := rfl
  have hC : isTerminalState ExecutionState.COMPLETED = true := rfl
  have h : (runExecution demoEnv ksOff runC1 [] 10).log.length = 4 := by
    norm_num [runExecution, runLoop, executeStep, transitionState,
      validTransitions, hR, hC, assertAlive, addCost, enforceLimits,
      logEvent, demoEnv, ksOff, runC1, createExecutionRun]
  exact ⟨h, by rw [h]; norm_num⟩

/-- C1 amended: with budget {200 tokens, $0.5} and steps charging
(50 tokens, $0.1), `runExecution(run, 10)` fails with BudgetExceeded of
kind tokens, spent 250, limit 200, after exactly 4 steps succeed and a
5th is attempted (charged but not logged); the event log contains
exactly 4 events and `run.spent` records the full 250 tokens and $0.5. -/
theorem C1_budget_example_behavior :
    (runExecution demoEnv ksOff runC1 [] 10).error =
      some (.controlled (.budgetExceeded .tokens 250 200)) ∧
    (runExecution demoEnv ksOff runC1 [] 10).log.length = 4 ∧
    (runExecution demoEnv ksOff runC1 [] 10).run.steps.length = 4 ∧
    (runExecution demoEnv ksOff runC1 [] 10).run.spent.tokens = 250 ∧
    (runExecution demoEnv ksOff runC1 [] 10).run.spent.usd = 1/2 := by
  have hR : isTerminalState ExecutionState.RUNNING = false := rfl
  have hC : isTerminalState ExecutionState.COMPLETED = true := rfl
  norm_num [runExecution, runLoop, executeStep, transitionState,
    validTransitions, hR, hC, assertAlive, addCost, enforceLimits,
    logEvent, demoEnv, ksOff, runC1, createExecutionRun]

/-- Counterexample to C5: a PAUSED run is not CREATED, yet
`runExecution(run, 0)` does not fail at the transition to RUNNING —
PAUSED→RUNNING is valid — and here even completes. -/
theorem C5_not_created_counterexample :
    runPaused.state ≠ ExecutionState.CREATED ∧
    (runExecution demoEnv ksOff runPaused [] 0).error = none ∧
    (runExecution demoEnv ksOff runPaused [] 0).run.state =
      ExecutionState.COMPLETED := by
  refine ⟨by decide, ?_, ?_⟩ <;>
    simp [runExecution, runLoop, transitionState, validTransitions,
      isTerminalState, demoEnv, runPaused, runC1, createExecutionRun]

/-- C5 amended: for every run whose state is neither CREATED nor PAUSED
(RUNNING, COMPLETED, KILLED or FAILED), `runExecution` fails at its
first action, the transition to RUNNING, with InvalidTransition, before
any step is executed, any cost accumulated, or any event appended. -/
theorem C5_invalid_start_state (env : Env) (ks : KillSwitch)
    (run : ExecutionRun) (log : List StepEvent) (maxSteps : Nat)
    (h1 : run.state ≠ .CREATED) (h2 : run.state ≠ .PAUSED) :
    runExecution env ks run log maxSteps =
      { run := run, log := log,
        error := some (.controlled (.invalidStateTransition run.state
          .RUNNING)) } := by
  have hmem : ExecutionState.RUNNING ∉ validTransitions run.state := by
    cases hs : run.state <;> simp_all [validTransitions]
  simp [runExecution, transitionState, if_neg hmem]

/-- Witness for C5 amended: a RUNNING run makes `runExecution` fail
immediately with InvalidTransition, leaving run and log untouched. -/
theorem C5_invalid_start_state_witness :
    runRunning.state ≠ ExecutionState.CREATED ∧
    runRunning.state ≠ ExecutionState.PAUSED ∧
    runExecution demoEnv ksOff runRunning [] 3 =
      { run := runRunning, log := [],
        error := some (.controlled (.invalidStateTransition .RUNNING
          .RUNNING)) } :=
  ⟨by decide, by decide,
    C5_invalid_start_state demoEnv ksOff runRunning [] 3 (by decide)
      (by decide)⟩

/-- C8: for every CREATED run and any kill-switch state,
`runExecution(run, 0)` succeeds, ending in COMPLETED, with no event
appended and `run.spent` unchanged. -/
theorem C8_zero_steps_completes (env : Env) (ks : KillSwitch)
    (run : ExecutionRun) (log : List StepEvent)
    (h : run.state = .CREATED) :
    (runExecution env ks run log 0).error = none ∧
    (runExecution env ks run log 0).run.state = .COMPLETED ∧
    (runExecution env ks run log 0).log = log ∧
    (runExecution env ks run log 0).run.spent = run.spent := by
  by_cases hs : run.startedAt = none <;>
    simp [runExecution, runLoop, transitionState, validTransitions,
      isTerminalState, h, hs]

/-- Witness for C8: the fresh example run with the kill switch already
triggered still completes at `maxSteps = 0` with nothing spent. -/
theorem C8_zero_steps_completes_witness :
    runC1.state = ExecutionState.CREATED ∧
    (runExecution demoEnv ksOn runC1 [] 0).error = none ∧
    (runExecution demoEnv ksOn runC1 [] 0).run.state =
      ExecutionState.COMPLETED ∧
    (runExecution demoEnv ksOn runC1 [] 0).run.spent = runC1.spent :=
  have h := C8_zero_steps_completes demoEnv ksOn runC1 [] rfl
  ⟨rfl, h.1, h.2.1, h.2.2.2⟩

/-- Counterexample to C9: for a run with `startedAt = 10` and `endedAt`
unset, the summary at current time 50 has `durationMs = 40`, not the 0
the claim states for a run with either timestamp unset. -/
theorem C9_duration_counterexample :
    runStarted.startedAt = some 10 ∧
    runStarted.endedAt = none ∧
    (generateSummary runStarted 50).durationMs = 40 ∧
    (generateSummary runStarted 50).durationMs ≠ 0 := by
  refine ⟨rfl, rfl, ?_, ?_⟩ <;> simp [generateSummary, runStarted, runC1,
    createExecutionRun]

/-- C9 amended: `generateSummary` has
`durationMs = endedAt - startedAt` with the current time substituted
for each unset timestamp; in particular `durationMs = 0` when both
`startedAt` and `endedAt` are unset. -/
theorem C9_duration_fallback (run : ExecutionRun) (now : Nat) :
    (generateSummary run now).durationMs =
      ((run.endedAt.getD now : Nat) : Int) -
        ((run.startedAt.getD now : Nat) : Int) ∧
    ((generateSummary run now).startedAt = run.startedAt.getD now ∧
      (generateSummary run now).endedAt = run.endedAt.getD now) ∧
    (run.startedAt = none → run.endedAt = none →
      (generateSummary run now).durationMs = 0) := by
  refine ⟨rfl, ⟨rfl, rfl⟩, fun h1 h2 => ?_⟩
  simp [generateSummary, h1, h2]

/-- Witness for C9 amended: a fresh run (both timestamps unset)
summarized at time 77 reports `durationMs = 0`. -/
theorem C9_duration_fallback_witness :
    (generateSummary runC1 77).durationMs = 0 :=
  (C9_duration_fallback runC1 77).2.2 rfl rfl

end AgentExec
